import Mathlib

/-!
Verification of the JKSSB prep backend (`src/backend/main.py`).

The repository is a single FastAPI module with two POST handlers,
`generate_mcq` and `generate_points`.  Each handler either serves a
deterministic mock response (when no OpenAI key is configured or the
client failed to import) or builds a prompt, calls the OpenAI chat
completion API, and interprets the returned text as JSON.

We shallowly embed the Python code:
 * JSON values become the inductive `Json` (numbers are modelled as
   integers; the claims under study never involve fractional numbers).
 * Python truthiness (`x or y`) becomes `Json.truthy` / `pyOr`;
   `dict.get(k)` with its `None` default becomes `jget` (the Python `None`
   and JSON `null` values coincide, as they do in `json.loads` output).
 * The handlers become pure functions of the request, the configuration,
   the completion collaborator (a function argument) and the JSON parse
   outcome of the returned text (`Option Json`, `none` = JSONDecodeError).
 * Raising an exception (FastAPI `HTTPException`, or the uncaught
   `AttributeError` from calling `.get` on a non-dict parse result)
   becomes the `Except.error` branch of `Except PyError Envelope`.
-/

/-- JSON values as produced by `json.loads`. -/
inductive Json where
  | null : Json
  | bool (b : Bool) : Json
  | num (n : Int) : Json
  | str (s : String) : Json
  | arr (xs : List Json) : Json
  | obj (fields : List (String × Json)) : Json

mutual

/-- Decidable equality of `Json` values (the automatic derivation does not
handle the nested lists). -/
def decEqJson : (a b : Json) → Decidable (a = b)
  | .null, .null => .isTrue rfl
  | .bool a, .bool b =>
      if h : a = b then .isTrue (by rw [h])
      else .isFalse (by intro hh; injection hh; contradiction)
  | .num a, .num b =>
      if h : a = b then .isTrue (by rw [h])
      else .isFalse (by intro hh; injection hh; contradiction)
  | .str a, .str b =>
      if h : a = b then .isTrue (by rw [h])
      else .isFalse (by intro hh; injection hh; contradiction)
  | .arr xs, .arr ys =>
      match decEqJsonList xs ys with
      | .isTrue h => .isTrue (by rw [h])
      | .isFalse h => .isFalse (by intro hh; injection hh; contradiction)
  | .obj fs, .obj gs =>
      match decEqJsonFields fs gs with
      | .isTrue h => .isTrue (by rw [h])
      | .isFalse h => .isFalse (by intro hh; injection hh; contradiction)
  | .null, .bool _ => .isFalse (fun h => Json.noConfusion h)
  | .null, .num _ => .isFalse (fun h => Json.noConfusion h)
  | .null, .str _ => .isFalse (fun h => Json.noConfusion h)
  | .null, .arr _ => .isFalse (fun h => Json.noConfusion h)
  | .null, .obj _ => .isFalse (fun h => Json.noConfusion h)
  | .bool _, .null => .isFalse (fun h => Json.noConfusion h)
  | .bool _, .num _ => .isFalse (fun h => Json.noConfusion h)
  | .bool _, .str _ => .isFalse (fun h => Json.noConfusion h)
  | .bool _, .arr _ => .isFalse (fun h => Json.noConfusion h)
  | .bool _, .obj _ => .isFalse (fun h => Json.noConfusion h)
  | .num _, .null => .isFalse (fun h => Json.noConfusion h)
  | .num _, .bool _ => .isFalse (fun h => Json.noConfusion h)
  | .num _, .str _ => .isFalse (fun h => Json.noConfusion h)
  | .num _, .arr _ => .isFalse (fun h => Json.noConfusion h)
  | .num _, .obj _ => .isFalse (fun h => Json.noConfusion h)
  | .str _, .null => .isFalse (fun h => Json.noConfusion h)
  | .str _, .bool _ => .isFalse (fun h => Json.noConfusion h)
  | .str _, .num _ => .isFalse (fun h => Json.noConfusion h)
  | .str _, .arr _ => .isFalse (fun h => Json.noConfusion h)
  | .str _, .obj _ => .isFalse (fun h => Json.noConfusion h)
  | .arr _, .null => .isFalse (fun h => Json.noConfusion h)
  | .arr _, .bool _ => .isFalse (fun h => Json.noConfusion h)
  | .arr _, .num _ => .isFalse (fun h => Json.noConfusion h)
  | .arr _, .str _ => .isFalse (fun h => Json.noConfusion h)
  | .arr _, .obj _ => .isFalse (fun h => Json.noConfusion h)
  | .obj _, .null => .isFalse (fun h => Json.noConfusion h)
  | .obj _, .bool _ => .isFalse (fun h => Json.noConfusion h)
  | .obj _, .num _ => .isFalse (fun h => Json.noConfusion h)
  | .obj _, .str _ => .isFalse (fun h => Json.noConfusion h)
  | .obj _, .arr _ => .isFalse (fun h => Json.noConfusion h)

/-- Decidable equality of lists of `Json` values. -/
def decEqJsonList : (xs ys : List Json) → Decidable (xs = ys)
  | [], [] => .isTrue rfl
  | [], _ :: _ => .isFalse (fun h => List.noConfusion h)
  | _ :: _, [] => .isFalse (fun h => List.noConfusion h)
  | x :: xs, y :: ys =>
      match decEqJson x y, decEqJsonList xs ys with
      | .isTrue h1, .isTrue h2 => .isTrue (by rw [h1, h2])
      | .isFalse _, _ => .isFalse (by intro h; injection h; contradiction)
      | _, .isFalse _ => .isFalse (by intro h; injection h; contradiction)

/-- Decidable equality of JSON object field lists. -/
def decEqJsonFields : (xs ys : List (String × Json)) → Decidable (xs = ys)
  | [], [] => .isTrue rfl
  | [], _ :: _ => .isFalse (fun h => List.noConfusion h)
  | _ :: _, [] => .isFalse (fun h => List.noConfusion h)
  | (k1, v1) :: xs, (k2, v2) :: ys =>
      if hk : k1 = k2 then
        match decEqJson v1 v2, decEqJsonFields xs ys with
        | .isTrue h1, .isTrue h2 => .isTrue (by rw [hk, h1, h2])
        | .isFalse _, _ =>
            .isFalse (by intro h; injection h with h3 h4; injection h3; contradiction)
        | _, .isFalse _ =>
            .isFalse (by intro h; injection h with h3 h4; contradiction)
      else
        .isFalse (by intro h; injection h with h3 h4; injection h3; contradiction)

end

instance : DecidableEq Json := decEqJson

/-- Python truthiness of a `json.loads` value (`None`, `False`, `0`, `""`,
`[]`, `{}` are falsy). -/
def Json.truthy : Json → Bool
  | .null => false
  | .bool b => b
  | .num n => n != 0
  | .str s => s != ""
  | .arr xs => !xs.isEmpty
  | .obj fs => !fs.isEmpty

/-- First binding of a key in a Python dict (keys are unique in dicts
produced by `json.loads`). -/
def lookupField : List (String × Json) → String → Option Json
  | [], _ => none
  | (k, v) :: fs, key => if k = key then some v else lookupField fs key

/-- `d.get(k)`: the value stored under `k`, or `None` when absent.
The Python `None` and a stored JSON `null` are the same object, so both
map to `Json.null`. -/
def jget (fs : List (String × Json)) (k : String) : Json :=
  (lookupField fs k).getD Json.null

/-- Python `a or b` on `json.loads` values. -/
def pyOr (a b : Json) : Json :=
  if a.truthy then a else b

/-- The JSON body both handlers return (`request_id`, `status`,
`tokens_used`, and either `result` (status `"ok"`) or `raw_text`
(status `"parse_error"`)). -/
structure Envelope where
  request_id : String
  status : String
  tokens_used : Option Int
  result : Option Json
  raw_text : Option String
deriving DecidableEq

/-- Exceptions the handlers can let escape: the explicitly raised
`HTTPException(status_code, detail)` and the uncaught `AttributeError`
from `parsed.get(...)` when `json.loads` returned a non-dict. -/
inductive PyError where
  | httpException (status_code : Int) (detail : String) : PyError
  | attributeError : PyError
deriving DecidableEq

/-- Process configuration read at startup: `OPENAI_KEY = os.getenv(...)`
(absent or possibly empty string) and whether the `openai` module
imported successfully. -/
structure Config where
  key : Option String
  clientOk : Bool
deriving DecidableEq

/-- Truthiness of `OPENAI_KEY` (`None` and `""` are falsy). -/
def keyTruthy (k : Option String) : Bool :=
  match k with
  | none => false
  | some s => s != ""

/-- The guard `not OPENAI_KEY or not (openai in globals and openai is not None)`:
the guard that routes a request onto the mock path. -/
def mockMode (cfg : Config) : Bool :=
  !keyTruthy cfg.key || !cfg.clientOk

/-- The fields of the completion response the handlers read:
`resp.choices[0].message.get("content", "")`, `getattr(resp, "id",
"openai-1")` and `resp.usage.get("total_tokens")` (absent when `resp`
has no usage or the key is missing). -/
structure OpenAIResp where
  content : String
  id : Option String
  total_tokens : Option Int
deriving DecidableEq

/-- Body of `POST /generate/mcq` (the `MCQRequest` pydantic model). -/
structure MCQRequest where
  topic : String
  count : Int
  difficulty : String
  context : Option String
deriving DecidableEq

/-- Body of `POST /generate/points` after the field extraction done by
the handler (`topic`, `max_points`, `context`). -/
structure PointsRequest where
  topic : String
  max_points : Int
  context : Option String
deriving DecidableEq

/-- System message of `build_mcq_prompt` (source lines 53-58). -/
def mcq_system : String :=
  "You are an expert JKSSB exam writer and teacher. Your job: produce clear, factual, " ++
  "unambiguous multiple-choice questions suitable for competitive exams. " ++
  "Do NOT invent facts. If you do not know a fact, say so in the explanation. " ++
  "Always return valid JSON only (no surrounding markdown)."

/-- First line of the MCQ user message (the f-string on source line 61). -/
def mcq_task_line (topic : String) (count : Int) : String :=
  "Task: Create exactly " ++ toString count ++
  " multiple-choice questions on the topic: \"" ++ topic ++ "\".\n\n"

/-- Remainder of the MCQ user message (source lines 62-78). -/
def mcq_schema_block : String :=
  "Requirements for each question object:\n" ++
    " - id: integer\n" ++
    " - question: concise, clear question statement (avoid ambiguous pronouns)\n" ++
    " - options: array of 4 distinct short option texts (A-D). Place the correct option among them.\n" ++
    " - answer_letter: single uppercase letter \x27A\x27/\x27B\x27/\x27C\x27/\x27D\x27 indicating the correct option position\n" ++
    " - answer: the full text of the correct option\n" ++
    " - explain: one-line (12-30 words) fact-based explanation referencing the reason for the correct answer\n" ++
    " - difficulty: one of [easy, medium, hard]\n" ++
    " - source_note: short phrase saying either \x27derived from provided context\x27 OR \x27common knowledge\x27\n" ++
    " - mnemonic: optional short memory tip (<=12 words) or empty string if none\n\n" ++
    "Rules:\n" ++
    " 1) Prefer facts from the provided context. If context is provided, say \x27derived from provided context\x27 in source_note.\n" ++
    " 2) Do NOT hallucinate specific dates/names outside the context. If unsure, keep question conceptual and mark answer explain accordingly.\n" ++
    " 3) Use straightforward language suitable for JKSSB aspirants.\n" ++
    " 4) Output MUST be valid JSON with a top-level key \"questions\" whose value is an array of question objects exactly like above.\n\n" ++
    "Example required output format (must follow exactly):\n" ++
    "\x7b\"questions\":[\x7b\"id\":1,\"question\":\"...\",\"options\":[\"A\",\"B\",\"C\",\"D\"],\"answer_letter\":\"B\",\"answer\":\"...\",\"explain\":\"...\",\"difficulty\":\"easy\",\"source_note\":\"common knowledge\",\"mnemonic\":\"\"\x7d]\x7d\n\n"

/-- Context block prepended to the MCQ user message when `context` is
truthy (the f-string on source line 83). -/
def mcq_context_block (c : String) : String :=
  "Context:\n" ++ c ++ "\n\nPlease prioritize facts from the context above.\n\n"

/-- Embedding of `build_mcq_prompt` (source lines 48-85).  The
`difficulty` parameter is accepted but never used, exactly as in the
source. -/
def build_mcq_prompt (topic : String) (count : Int) (difficulty : String)
    (context : Option String) : String × String :=
  let user := mcq_task_line topic count ++ mcq_schema_block
  let user :=
    match context with
    | some c => if c != "" then mcq_context_block c ++ user else user
    | none => user
  (mcq_system, user)

/-- System message of `build_points_prompt` (source lines 90-93). -/
def points_system : String :=
  "You are an expert JKSSB instructor who writes clear, concise study notes for aspirants. " ++
  "Return only valid JSON. Keep language simple and memorization-focused."

/-- First line of the points user message (the f-string on source
line 96). -/
def points_task_line (topic : String) (max_points : Int) : String :=
  "Task: Summarize the topic \"" ++ topic ++ "\" into up to " ++ toString max_points ++
  " short bullet points that a JKSSB aspirant can memorize.\n\n"

/-- Remainder of the points user message (source lines 97-103); its last
sentence is the context-preference directive. -/
def points_schema_block : String :=
  "Requirements for each bullet:\n" ++
    " - Keep it one short sentence (<= 14 words) when possible.\n" ++
    " - Preserve key facts, names, or numbers if necessary.\n" ++
    " - Use a short mnemonic (<= 6 words) for the topic if helpful. If none, put empty string.\n\n" ++
    "Return JSON with top-level key \"points\" whose value is an array of objects:\n" ++
    "\x7b\"points\":[\x7b\"id\":1,\"text\":\"...\", \"mnemonic\":\"\"\x7d, ...]\x7d\n\n" ++
    "If context is provided, prefer facts from the context and mention \x27derived from provided context\x27 in a source_note inside each object where relevant."

/-- Context block prepended to the points user message when `context` is
truthy (the f-string on source line 107). -/
def points_context_block (c : String) : String :=
  "Context:\n" ++ c ++ "\n\n"

/-- Embedding of `build_points_prompt` (source lines 89-109). -/
def build_points_prompt (topic : String) (max_points : Int) (context : Option String) :
    String × String :=
  let user := points_task_line topic max_points ++ points_schema_block
  let user :=
    match context with
    | some c => if c != "" then points_context_block c ++ user else user
    | none => user
  (points_system, user)

/-- Embedding of the local `make_q` closure of `generate_mcq` (source
lines 177-185): one mock question.  Note that it emits only the six
fields `id`, `question`, `options`, `answer`, `explain`, `difficulty`. -/
def make_q (topic difficulty : String) (i : Int) : Json :=
  Json.obj [
    ("id", Json.num i),
    ("question", Json.str ("[MOCK] What is a key fact about " ++ topic ++ "? (mock #" ++ toString i ++ ")")),
    ("options", Json.arr [Json.str "Option A", Json.str "Option B", Json.str "Option C", Json.str "Option D"]),
    ("answer", Json.str "Option B"),
    ("explain", Json.str ("Because of reason " ++ toString i ++ " — memorize the key phrase for " ++ topic ++ ".")),
    ("difficulty", Json.str difficulty)]

/-- Embedding of `[make_q(i+1) for i in range(max(1, min(20, req.count)))]`
(source line 186). -/
def mock_mcq_result (req : MCQRequest) : List Json :=
  (List.range (max 1 (min 20 req.count)).toNat).map
    (fun i => make_q req.topic req.difficulty (Int.ofNat i + 1))

/-- Embedding of one element of the mock list of `generate_points`
(source lines 126-129). -/
def mock_point (topic : String) (i : Nat) : Json :=
  Json.obj [
    ("id", Json.num (Int.ofNat i + 1)),
    ("text", Json.str ("[MOCK] Key point " ++ toString (i + 1) ++ " about " ++ topic)),
    ("mnemonic", Json.str "")]

/-- Embedding of the mock list comprehension of `generate_points`
(`for i in range(max(1, min(12, max_points)))`, source lines 126-129). -/
def mock_points_result (req : PointsRequest) : List Json :=
  (List.range (max 1 (min 12 req.max_points)).toNat).map (fun i => mock_point req.topic i)

/-- Candidate resolution of `generate_mcq` (source line 208):
`parsed.get("questions") or parsed.get("result") or parsed.get("data") or
parsed`, given that `parsed` is the dict `obj fs`. -/
def pick_mcq (fs : List (String × Json)) : Json :=
  pyOr (jget fs "questions") (pyOr (jget fs "result") (pyOr (jget fs "data") (Json.obj fs)))

/-- One-level unwrap of `generate_mcq` (source lines 209-210):
`if isinstance(questions, dict) and "questions" in questions: questions =
questions["questions"]`. -/
def unwrap_mcq : Json → Json
  | Json.obj gs =>
      match lookupField gs "questions" with
      | some v => v
      | none => Json.obj gs
  | q => q

/-- The `try: parsed = json.loads(text) ...` block of `generate_mcq`
(source lines 206-225), as a function of the parse outcome (`none` means
`json.JSONDecodeError`).  When `json.loads` returns a non-dict, Python
raises `AttributeError` on `parsed.get` and the exception is not caught
(only `JSONDecodeError` is). -/
def interpret_mcq (request_id : String) (tokens_used : Option Int) (text : String) :
    Option Json → Except PyError Envelope
  | none => Except.ok ⟨request_id, "parse_error", tokens_used, none, some text⟩
  | some parsed =>
      match parsed with
      | Json.obj fs =>
          match unwrap_mcq (pick_mcq fs) with
          | Json.arr xs => Except.ok ⟨request_id, "ok", tokens_used, some (Json.arr xs), none⟩
          | _ => Except.ok ⟨request_id, "ok", tokens_used, some (Json.obj fs), none⟩
      | _ => Except.error PyError.attributeError

/-- Candidate resolution of `generate_points` (source line 150):
`parsed.get("points") or parsed.get("result") or parsed` — no `"data"`
candidate and no one-level unwrap, unlike question mode. -/
def pick_points (fs : List (String × Json)) : Json :=
  pyOr (jget fs "points") (pyOr (jget fs "result") (Json.obj fs))

/-- The `try: parsed = json.loads(text) ...` block of `generate_points`
(source lines 148-166), as a function of the parse outcome. -/
def interpret_points (request_id : String) (tokens_used : Option Int) (text : String) :
    Option Json → Except PyError Envelope
  | none => Except.ok ⟨request_id, "parse_error", tokens_used, none, some text⟩
  | some parsed =>
      match parsed with
      | Json.obj fs =>
          match pick_points fs with
          | Json.arr xs => Except.ok ⟨request_id, "ok", tokens_used, some (Json.arr xs), none⟩
          | _ => Except.ok ⟨request_id, "ok", tokens_used, some (Json.obj fs), none⟩
      | _ => Except.error PyError.attributeError

/-- Embedding of the `POST /generate/mcq` handler (source lines 173-225).
The completion collaborator `create` (`openai.ChatCompletion.create`
applied to the system and user messages) and the standard-library JSON
parser `loads` are passed as functions; an `Except.error` from `create`
models the `except Exception` branch. -/
def generate_mcq (cfg : Config) (req : MCQRequest)
    (create : String → String → Except String OpenAIResp)
    (loads : String → Option Json) : Except PyError Envelope :=
  if mockMode cfg then
    Except.ok ⟨"local-mock-no-key", "ok", some 0, some (Json.arr (mock_mcq_result req)), none⟩
  else
    let prompts := build_mcq_prompt req.topic req.count req.difficulty req.context
    match create prompts.1 prompts.2 with
    | Except.error e => Except.error (PyError.httpException 500 ("OpenAI request failed: " ++ e))
    | Except.ok resp =>
        let text := resp.content.trim
        interpret_mcq (resp.id.getD "openai-1") resp.total_tokens text (loads text)

/-- Embedding of the `POST /generate/points` handler (source lines
112-166), with the same collaborator parameters as `generate_mcq`. -/
def generate_points (cfg : Config) (req : PointsRequest)
    (create : String → String → Except String OpenAIResp)
    (loads : String → Option Json) : Except PyError Envelope :=
  if mockMode cfg then
    Except.ok ⟨"local-mock-points", "ok", some 0, some (Json.arr (mock_points_result req)), none⟩
  else
    let prompts := build_points_prompt req.topic req.max_points req.context
    match create prompts.1 prompts.2 with
    | Except.error e => Except.error (PyError.httpException 500 ("OpenAI request failed: " ++ e))
    | Except.ok resp =>
        let text := resp.content.trim
        interpret_points (resp.id.getD "openai-1") resp.total_tokens text (loads text)

/-- Boolean test that `pat` occurs at the start of a character list. -/
def listHasPref : List Char → List Char → Bool
  | [], _ => true
  | _ :: _, [] => false
  | p :: ps, c :: cs => p == c && listHasPref ps cs

/-- Boolean test that `pat` occurs contiguously somewhere in a character
list. -/
def listHasSub (pat : List Char) : List Char → Bool
  | [] => listHasPref pat []
  | c :: cs => listHasPref pat (c :: cs) || listHasSub pat cs

/-- Boolean test that the string `pat` starts the string `s`. -/
def strHasPref (pat s : String) : Bool := listHasPref pat.data s.data

/-- Boolean test that the string `pat` occurs as a contiguous substring
of `s`. -/
def strHasSub (pat s : String) : Bool := listHasSub pat.data s.data

/-- Field access on a JSON value: the binding stored under `k` when the
value is an object, `none` otherwise. -/
def getField (j : Json) (k : String) : Option Json :=
  match j with
  | Json.obj fs => lookupField fs k
  | _ => none

instance : DecidableEq (Except PyError Envelope) := fun a b =>
  match a, b with
  | Except.ok x, Except.ok y =>
      if h : x = y then Decidable.isTrue (by rw [h])
      else Decidable.isFalse (by intro hh; injection hh; contradiction)
  | Except.error x, Except.error y =>
      if h : x = y then Decidable.isTrue (by rw [h])
      else Decidable.isFalse (by intro hh; injection hh; contradiction)
  | Except.ok _, Except.error _ => Decidable.isFalse (fun h => Except.noConfusion h)
  | Except.error _, Except.ok _ => Decidable.isFalse (fun h => Except.noConfusion h)

theorem listHasPref_self (l : List Char) : listHasPref l l = true := by
  induction l with
  | nil => rfl
  | cons c cs ih => simp [listHasPref, ih]

theorem listHasPref_append (pat s t : List Char) (h : listHasPref pat s = true) :
    listHasPref pat (s ++ t) = true := by
  induction pat generalizing s with
  | nil => simp [listHasPref]
  | cons p ps ih =>
      cases s with
      | nil => simp [listHasPref] at h
      | cons c cs =>
          simp only [listHasPref, Bool.and_eq_true] at h
          simp only [List.cons_append, listHasPref, Bool.and_eq_true]
          exact ⟨h.1, ih cs h.2⟩

theorem string_data_append (a b : String) : (a ++ b).data = a.data ++ b.data := rfl

theorem strHasPref_append (p a b : String) (h : strHasPref p a = true) :
    strHasPref p (a ++ b) = true := by
  unfold strHasPref at h ⊢
  rw [string_data_append]
  exact listHasPref_append _ _ _ h

theorem strHasPref_self_append (p b : String) : strHasPref p (p ++ b) = true := by
  unfold strHasPref
  rw [string_data_append]
  exact listHasPref_append _ _ _ (listHasPref_self p.data)

theorem truthy_null : Json.truthy Json.null = false := rfl

theorem truthy_arr_cons (x : Json) (xs : List Json) :
    Json.truthy (Json.arr (x :: xs)) = true := rfl

/-- C2: in both generation modes, when structured (JSON) parsing of the
returned text fails, the interpreter returns a normal (non-thrown)
envelope with status "parse_error" whose raw_text field is exactly the
original input text, unchanged. -/
theorem C2_parse_error_preserves_raw_text :
    ∀ (rid : String) (tok : Option Int) (text : String),
      interpret_mcq rid tok text none
        = Except.ok ⟨rid, "parse_error", tok, none, some text⟩ ∧
      interpret_points rid tok text none
        = Except.ok ⟨rid, "parse_error", tok, none, some text⟩ :=
  fun _ _ _ => ⟨rfl, rfl⟩

/-- C3: with a credential configured (mock mode off), when the completion
invocation raises, both handlers surface a hard failure to the caller —
an HTTPException with status 500 whose detail carries the underlying
message.  The single invocation outcome fully determines the response:
it is the error, never a retried call and never a mock envelope. -/
theorem C3_upstream_failure_is_hard_error :
    ∀ (cfg : Config) (req : MCQRequest) (preq : PointsRequest)
      (loads : String → Option Json) (e : String),
      mockMode cfg = false →
      generate_mcq cfg req (fun _ _ => Except.error e) loads
        = Except.error (PyError.httpException 500 ("OpenAI request failed: " ++ e)) ∧
      generate_points cfg preq (fun _ _ => Except.error e) loads
        = Except.error (PyError.httpException 500 ("OpenAI request failed: " ++ e)) := by
  intro cfg req preq loads e h
  constructor
  · simp [generate_mcq, h]
  · simp [generate_points, h]

/-- Witness for C3 at a concrete configuration, request and failure
message. -/
theorem C3_witness :
    generate_mcq ⟨some "sk-test", true⟩ ⟨"Indian Polity", 5, "medium", none⟩
        (fun _ _ => Except.error "boom") (fun _ => none)
      = Except.error (PyError.httpException 500 ("OpenAI request failed: " ++ "boom")) ∧
    generate_points ⟨some "sk-test", true⟩ ⟨"Indian Polity", 8, none⟩
        (fun _ _ => Except.error "boom") (fun _ => none)
      = Except.error (PyError.httpException 500 ("OpenAI request failed: " ++ "boom")) :=
  C3_upstream_failure_is_hard_error ⟨some "sk-test", true⟩ ⟨"Indian Polity", 5, "medium", none⟩
    ⟨"Indian Polity", 8, none⟩ (fun _ => none) "boom" (by decide)

/-- C9: whenever the mock guard is taken (no truthy credential, or the
completion client unavailable), the handler response is a deterministic
envelope computed from the request alone: the completion collaborator
and the JSON parser are never consulted, so any two runs on the same
request yield identical envelopes regardless of invoker behaviour. -/
theorem C9_mock_path_independent_of_invoker :
    ∀ (cfg : Config) (req : MCQRequest) (preq : PointsRequest)
      (create1 create2 : String → String → Except String OpenAIResp)
      (loads1 loads2 : String → Option Json),
      mockMode cfg = true →
      generate_mcq cfg req create1 loads1 = generate_mcq cfg req create2 loads2 ∧
      generate_mcq cfg req create1 loads1
        = Except.ok ⟨"local-mock-no-key", "ok", some 0, some (Json.arr (mock_mcq_result req)), none⟩ ∧
      generate_points cfg preq create1 loads1 = generate_points cfg preq create2 loads2 ∧
      generate_points cfg preq create1 loads1
        = Except.ok ⟨"local-mock-points", "ok", some 0, some (Json.arr (mock_points_result preq)), none⟩ := by
  intro cfg req preq c1 c2 l1 l2 h
  refine ⟨?_, ?_, ?_, ?_⟩ <;> simp [generate_mcq, generate_points, h]

/-- Witness for C9: with no key configured, a collaborator that raises
and a collaborator that answers produce the same mock envelope. -/
theorem C9_witness :
    generate_mcq ⟨none, true⟩ ⟨"History", 3, "easy", none⟩
        (fun _ _ => Except.error "down") (fun _ => none)
      = generate_mcq ⟨none, true⟩ ⟨"History", 3, "easy", none⟩
        (fun _ _ => Except.ok ⟨"ok-text", some "id-1", some 7⟩) (fun _ => some Json.null) ∧
    generate_points ⟨none, true⟩ ⟨"History", 4, none⟩
        (fun _ _ => Except.error "down") (fun _ => none)
      = generate_points ⟨none, true⟩ ⟨"History", 4, none⟩
        (fun _ _ => Except.ok ⟨"ok-text", some "id-1", some 7⟩) (fun _ => some Json.null) :=
  have h := C9_mock_path_independent_of_invoker ⟨none, true⟩ ⟨"History", 3, "easy", none⟩
    ⟨"History", 4, none⟩ (fun _ _ => Except.error "down")
    (fun _ _ => Except.ok ⟨"ok-text", some "id-1", some 7⟩)
    (fun _ => none) (fun _ => some Json.null) (by decide)
  ⟨h.1, h.2.2.1⟩

/-- C10: question-mode resolution has the extra top-level candidate
"data", tried after "questions" and "result" and before the parsed-value
fallback; a parsed object whose only list-bearing key is "data" yields
status ok with that list in question mode, while points mode (which has
no "data" candidate) falls through and returns the whole object. -/
theorem C10_mcq_extra_data_candidate :
    (∀ v d : Json, v.truthy = true → pick_mcq [("questions", v), ("data", d)] = v) ∧
    (∀ r d : Json, r.truthy = true → pick_mcq [("result", r), ("data", d)] = r) ∧
    (∀ d : Json, d.truthy = true → pick_mcq [("data", d)] = d) ∧
    interpret_mcq "rid" none "txt" (some (Json.obj [("data", Json.arr [Json.num 1])]))
      = Except.ok ⟨"rid", "ok", none, some (Json.arr [Json.num 1]), none⟩ ∧
    pick_points [("data", Json.arr [Json.num 1])] = Json.obj [("data", Json.arr [Json.num 1])] ∧
    interpret_points "rid" none "txt" (some (Json.obj [("data", Json.arr [Json.num 1])]))
      = Except.ok ⟨"rid", "ok", none, some (Json.obj [("data", Json.arr [Json.num 1])]), none⟩ := by
  refine ⟨?_, ?_, ?_, by decide, by decide, by decide⟩
  · intro v d hv
    simp [pick_mcq, jget, lookupField, pyOr, hv]
  · intro r d hr
    simp [pick_mcq, jget, lookupField, pyOr, truthy_null, hr]
  · intro d hd
    simp [pick_mcq, jget, lookupField, pyOr, truthy_null, hd]

/-- Witness for C10: the candidate order at concrete truthy values. -/
theorem C10_witness :
    pick_mcq [("questions", Json.arr [Json.num 7]), ("data", Json.arr [Json.num 8])]
      = Json.arr [Json.num 7] ∧
    pick_mcq [("result", Json.arr [Json.num 7]), ("data", Json.arr [Json.num 8])]
      = Json.arr [Json.num 7] ∧
    pick_mcq [("data", Json.arr [Json.num 8])] = Json.arr [Json.num 8] :=
  ⟨C10_mcq_extra_data_candidate.1 _ _ (by decide),
   C10_mcq_extra_data_candidate.2.1 _ _ (by decide),
   C10_mcq_extra_data_candidate.2.2.1 _ (by decide)⟩

set_option maxRecDepth 8192

theorem mcq_marker (topic difficulty : String) (i : Int) :
    ∃ s, getField (make_q topic difficulty i) "question" = some (Json.str s) ∧
      strHasPref "[MOCK]" s = true := by
  refine ⟨"[MOCK] What is a key fact about " ++ topic ++ "? (mock #" ++ toString i ++ ")",
    by simp [make_q, getField, lookupField], ?_⟩
  exact strHasPref_append _ _ _ (strHasPref_append _ _ _ (strHasPref_append _ _ _
    (strHasPref_append _ _ _ (by decide))))

theorem point_marker (topic : String) (i : Nat) :
    ∃ s, getField (mock_point topic i) "text" = some (Json.str s) ∧
      strHasPref "[MOCK]" s = true := by
  refine ⟨"[MOCK] Key point " ++ toString (i + 1) ++ " about " ++ topic,
    by simp [mock_point, getField, lookupField], ?_⟩
  exact strHasPref_append _ _ _ (strHasPref_append _ _ _ (strHasPref_append _ _ _ (by decide)))

/-- C5: with no credential configured, both handlers answer with the mock
result list, whose length is exactly max(1, min(upper, requested)) —
upper bound 20 for questions, 12 for points — and every item of which
carries the visible "[MOCK]" marker at the start of its text. -/
theorem C5_mock_length_and_marker :
    ∀ (cfg : Config) (req : MCQRequest) (preq : PointsRequest)
      (create : String → String → Except String OpenAIResp)
      (loads : String → Option Json),
      keyTruthy cfg.key = false →
      generate_mcq cfg req create loads
        = Except.ok ⟨"local-mock-no-key", "ok", some 0, some (Json.arr (mock_mcq_result req)), none⟩ ∧
      (mock_mcq_result req).length = (max 1 (min 20 req.count)).toNat ∧
      (∀ q ∈ mock_mcq_result req, ∃ s, getField q "question" = some (Json.str s) ∧
        strHasPref "[MOCK]" s = true) ∧
      generate_points cfg preq create loads
        = Except.ok ⟨"local-mock-points", "ok", some 0, some (Json.arr (mock_points_result preq)), none⟩ ∧
      (mock_points_result preq).length = (max 1 (min 12 preq.max_points)).toNat ∧
      (∀ p ∈ mock_points_result preq, ∃ s, getField p "text" = some (Json.str s) ∧
        strHasPref "[MOCK]" s = true) := by
  intro cfg req preq create loads hkey
  have hmock : mockMode cfg = true := by
    simp [mockMode, hkey]
  refine ⟨?_, ?_, ?_, ?_, ?_, ?_⟩
  · simp [generate_mcq, hmock]
  · simp only [mock_mcq_result, List.length_map, List.length_range]
  · intro q hq
    simp only [mock_mcq_result, List.mem_map] at hq
    obtain ⟨i, _, rfl⟩ := hq
    exact mcq_marker req.topic req.difficulty _
  · simp [generate_points, hmock]
  · simp only [mock_points_result, List.length_map, List.length_range]
  · intro p hp
    simp only [mock_points_result, List.mem_map] at hp
    obtain ⟨i, _, rfl⟩ := hp
    exact point_marker preq.topic _

/-- Witness for C5: a request for 25 questions with no key yields the
20-element mock list, and a request for 3 points yields 3 items. -/
theorem C5_witness :
    generate_mcq ⟨none, true⟩ ⟨"Geography", 25, "hard", none⟩
        (fun _ _ => Except.error "down") (fun _ => none)
      = Except.ok ⟨"local-mock-no-key", "ok", some 0,
          some (Json.arr (mock_mcq_result ⟨"Geography", 25, "hard", none⟩)), none⟩ ∧
    (mock_mcq_result ⟨"Geography", 25, "hard", none⟩).length = (max 1 (min 20 (25 : Int))).toNat ∧
    (mock_points_result ⟨"Geography", 3, none⟩).length = (max 1 (min 12 (3 : Int))).toNat :=
  have h := C5_mock_length_and_marker ⟨none, true⟩ ⟨"Geography", 25, "hard", none⟩
    ⟨"Geography", 3, none⟩ (fun _ _ => Except.error "down") (fun _ => none) (by decide)
  ⟨h.1, h.2.1, h.2.2.2.2.1⟩

/-- C6 is false as stated: the mock question generator omits three of the
fields the Question data model requires — answer_letter, source_note and
mnemonic are all absent from a mock question. -/
theorem C6_counterexample :
    getField (make_q "Indian Polity" "medium" 1) "answer_letter" = none ∧
    getField (make_q "Indian Polity" "medium" 1) "source_note" = none ∧
    getField (make_q "Indian Polity" "medium" 1) "mnemonic" = none := by
  refine ⟨by decide, by decide, by decide⟩

/-- C6 amended: every mock question carries exactly the fields id,
question (tagged "[MOCK]"), options (the four distinct texts
Option A..Option D), answer ("Option B", which is one of the options),
explain, and difficulty; the answer_letter, source_note and mnemonic
fields of the Question data model are absent. -/
theorem C6_amended_mock_question_shape :
    ∀ (topic difficulty : String) (i : Int),
      getField (make_q topic difficulty i) "id" = some (Json.num i) ∧
      (∃ s, getField (make_q topic difficulty i) "question" = some (Json.str s) ∧
        strHasPref "[MOCK]" s = true) ∧
      getField (make_q topic difficulty i) "options"
        = some (Json.arr [Json.str "Option A", Json.str "Option B",
            Json.str "Option C", Json.str "Option D"]) ∧
      List.Pairwise (fun a b => a ≠ b) ["Option A", "Option B", "Option C", "Option D"] ∧
      getField (make_q topic difficulty i) "answer" = some (Json.str "Option B") ∧
      Json.str "Option B" ∈ [Json.str "Option A", Json.str "Option B",
        Json.str "Option C", Json.str "Option D"] ∧
      (∃ s, getField (make_q topic difficulty i) "explain" = some (Json.str s)) ∧
      getField (make_q topic difficulty i) "difficulty" = some (Json.str difficulty) ∧
      getField (make_q topic difficulty i) "answer_letter" = none ∧
      getField (make_q topic difficulty i) "source_note" = none ∧
      getField (make_q topic difficulty i) "mnemonic" = none := by
  intro topic difficulty i
  refine ⟨by simp [make_q, getField, lookupField],
    mcq_marker topic difficulty i,
    by simp [make_q, getField, lookupField],
    by decide,
    by simp [make_q, getField, lookupField],
    by decide,
    ⟨"Because of reason " ++ toString i ++ " — memorize the key phrase for " ++ topic ++ ".",
      by simp [make_q, getField, lookupField]⟩,
    by simp [make_q, getField, lookupField],
    by simp [make_q, getField, lookupField],
    by simp [make_q, getField, lookupField],
    by simp [make_q, getField, lookupField]⟩

/-- C7 is false as stated: points mode never unwraps.  For the parsed
object with its "points" list wrapped one level deeper under "result",
the points interpreter does not return the inner list: it returns the
whole parsed object as the ok result. -/
theorem C7_counterexample :
    interpret_points "rid" none "txt"
        (some (Json.obj [("result", Json.obj [("points", Json.arr [Json.num 1])])]))
      = Except.ok ⟨"rid", "ok", none,
          some (Json.obj [("result", Json.obj [("points", Json.arr [Json.num 1])])]), none⟩ ∧
    Json.obj [("result", Json.obj [("points", Json.arr [Json.num 1])])] ≠ Json.arr [Json.num 1] := by
  refine ⟨by decide, by decide⟩

/-- C7 amended: only question mode unwraps one level — when the resolved
candidate is a dict that contains "questions", its value is taken, and
an inner list is returned as the ok result.  Points mode has no unwrap:
the same wrapped shape falls through to the permissive fallback, which
returns the entire parsed object. -/
theorem C7_amended_unwrap_only_questions :
    (∀ (rid : String) (tok : Option Int) (t : String) (xs : List Json),
      interpret_mcq rid tok t
          (some (Json.obj [("result", Json.obj [("questions", Json.arr xs)])]))
        = Except.ok ⟨rid, "ok", tok, some (Json.arr xs), none⟩) ∧
    (∀ (gs : List (String × Json)) (v : Json), lookupField gs "questions" = some v →
      unwrap_mcq (Json.obj gs) = v) ∧
    (∀ (rid : String) (tok : Option Int) (t : String) (xs : List Json),
      interpret_points rid tok t
          (some (Json.obj [("result", Json.obj [("points", Json.arr xs)])]))
        = Except.ok ⟨rid, "ok", tok,
            some (Json.obj [("result", Json.obj [("points", Json.arr xs)])]), none⟩) := by
  refine ⟨?_, ?_, ?_⟩
  · intro rid tok t xs
    simp [interpret_mcq, pick_mcq, jget, lookupField, pyOr, truthy_null,
      Json.truthy, unwrap_mcq]
  · intro gs v h
    simp [unwrap_mcq, h]
  · intro rid tok t xs
    simp [interpret_points, pick_points, jget, lookupField, pyOr, truthy_null, Json.truthy]

/-- Witness for C7 amended at a concrete wrapped parse. -/
theorem C7_amended_witness :
    interpret_mcq "rid" none "txt"
        (some (Json.obj [("result", Json.obj [("questions", Json.arr [Json.num 4])])]))
      = Except.ok ⟨"rid", "ok", none, some (Json.arr [Json.num 4]), none⟩ ∧
    unwrap_mcq (Json.obj [("questions", Json.arr [Json.num 4])]) = Json.arr [Json.num 4] :=
  ⟨C7_amended_unwrap_only_questions.1 "rid" none "txt" [Json.num 4],
   C7_amended_unwrap_only_questions.2.1 _ _ (by decide)⟩

/-- C8: for every non-empty context both prompt builders place the
literal context text at the head of the user instruction, before the
Task line, and the instruction carries an explicit directive to
prioritize/prefer facts from the context (an adjacent sentence in
question mode; the closing sentence of the schema block in points
mode). -/
theorem C8_context_precedes_task :
    ∀ (topic : String) (count mp : Int) (difficulty : String) (c : String),
      c ≠ "" →
      (build_mcq_prompt topic count difficulty (some c)).2
        = "Context:\n" ++ c ++ "\n\nPlease prioritize facts from the context above.\n\n"
            ++ (mcq_task_line topic count ++ mcq_schema_block) ∧
      strHasPref "Task: Create exactly " (mcq_task_line topic count) = true ∧
      (build_points_prompt topic mp (some c)).2
        = "Context:\n" ++ c ++ "\n\n" ++ (points_task_line topic mp ++ points_schema_block) ∧
      strHasPref "Task: Summarize the topic \"" (points_task_line topic mp) = true ∧
      strHasSub "prefer facts from the context" points_schema_block = true := by
  intro topic count mp difficulty c hc
  have hc' : (c != "") = true := by simpa using hc
  refine ⟨?_, ?_, ?_, ?_, by decide⟩
  · simp [build_mcq_prompt, mcq_context_block, hc']
  · simp only [mcq_task_line]
    exact strHasPref_append _ _ _ (strHasPref_append _ _ _ (strHasPref_append _ _ _
      (strHasPref_self_append _ _)))
  · simp [build_points_prompt, points_context_block, hc']
  · simp only [points_task_line]
    exact strHasPref_append _ _ _ (strHasPref_append _ _ _ (strHasPref_append _ _ _
      (strHasPref_self_append _ _)))

/-- Witness for C8 at a concrete context and topic. -/
theorem C8_witness :
    (build_mcq_prompt "Geography" 5 "easy" (some "Dal Lake is in Srinagar.")).2
      = "Context:\n" ++ "Dal Lake is in Srinagar."
          ++ "\n\nPlease prioritize facts from the context above.\n\n"
          ++ (mcq_task_line "Geography" 5 ++ mcq_schema_block) ∧
    (build_points_prompt "Geography" 8 (some "Dal Lake is in Srinagar.")).2
      = "Context:\n" ++ "Dal Lake is in Srinagar." ++ "\n\n"
          ++ (points_task_line "Geography" 8 ++ points_schema_block) :=
  have h := C8_context_precedes_task "Geography" 5 8 "easy" "Dal Lake is in Srinagar."
    (by decide)
  ⟨h.1, h.2.2.1⟩

/-- C1 is false as stated: resolution is by Python truthiness, not by
field presence.  In points mode, a parsed object whose "points" field is
present with the falsy value [] does not have that value used — the ok
envelope result is the whole parsed object instead; and the
parsed-value fallback exists only for dict parses — a successfully
parsed top-level array raises an uncaught AttributeError and yields no
envelope at all. -/
theorem C1_counterexample :
    lookupField [("points", Json.arr [])] "points" = some (Json.arr []) ∧
    interpret_points "rid" (some 3) "txt" (some (Json.obj [("points", Json.arr [])]))
      = Except.ok ⟨"rid", "ok", some 3, some (Json.obj [("points", Json.arr [])]), none⟩ ∧
    Json.obj [("points", Json.arr [])] ≠ Json.arr [] ∧
    interpret_points "rid" (some 3) "txt" (some (Json.arr [Json.num 1]))
      = Except.error PyError.attributeError := by
  refine ⟨by decide, by decide, by decide, by decide⟩

/-- C1 amended: over a dict parse, candidates are tried in order by
Python truthiness (the mode-specific field, then "result", then — in
question mode only — "data", then the dict itself), and the first truthy
one is taken.  In particular a mode-specific field holding a truthy
(non-empty) list is returned as the ok result; with the mode-specific
field absent, a truthy "result" list is returned as the ok result; and a
present-but-falsy mode-specific field is skipped in favour of a later
truthy candidate. -/
theorem C1_amended_truthy_resolution :
    (∀ (rid : String) (tok : Option Int) (t : String) (fs : List (String × Json))
       (x : Json) (xs : List Json),
      lookupField fs "questions" = some (Json.arr (x :: xs)) →
      interpret_mcq rid tok t (some (Json.obj fs))
        = Except.ok ⟨rid, "ok", tok, some (Json.arr (x :: xs)), none⟩) ∧
    (∀ (rid : String) (tok : Option Int) (t : String) (fs : List (String × Json))
       (x : Json) (xs : List Json),
      lookupField fs "points" = some (Json.arr (x :: xs)) →
      interpret_points rid tok t (some (Json.obj fs))
        = Except.ok ⟨rid, "ok", tok, some (Json.arr (x :: xs)), none⟩) ∧
    (∀ (rid : String) (tok : Option Int) (t : String) (fs : List (String × Json))
       (x : Json) (xs : List Json),
      lookupField fs "questions" = none →
      lookupField fs "result" = some (Json.arr (x :: xs)) →
      interpret_mcq rid tok t (some (Json.obj fs))
        = Except.ok ⟨rid, "ok", tok, some (Json.arr (x :: xs)), none⟩) ∧
    (∀ (rid : String) (tok : Option Int) (t : String) (fs : List (String × Json))
       (x : Json) (xs : List Json),
      lookupField fs "points" = none →
      lookupField fs "result" = some (Json.arr (x :: xs)) →
      interpret_points rid tok t (some (Json.obj fs))
        = Except.ok ⟨rid, "ok", tok, some (Json.arr (x :: xs)), none⟩) ∧
    (∀ (rid : String) (tok : Option Int) (t : String) (v x : Json) (xs : List Json),
      v.truthy = false →
      interpret_points rid tok t
          (some (Json.obj [("points", v), ("result", Json.arr (x :: xs))]))
        = Except.ok ⟨rid, "ok", tok, some (Json.arr (x :: xs)), none⟩) := by
  refine ⟨?_, ?_, ?_, ?_, ?_⟩
  · intro rid tok t fs x xs h
    simp [interpret_mcq, pick_mcq, jget, h, pyOr, Json.truthy, unwrap_mcq]
  · intro rid tok t fs x xs h
    simp [interpret_points, pick_points, jget, h, pyOr, Json.truthy]
  · intro rid tok t fs x xs h1 h2
    simp [interpret_mcq, pick_mcq, jget, h1, h2, pyOr, truthy_null, Json.truthy, unwrap_mcq]
  · intro rid tok t fs x xs h1 h2
    simp [interpret_points, pick_points, jget, h1, h2, pyOr, truthy_null, Json.truthy]
  · intro rid tok t v x xs hv
    simp [interpret_points, pick_points, jget, lookupField, pyOr, hv, truthy_null,
      truthy_arr_cons]

/-- Witness for C1 amended at concrete parses. -/
theorem C1_amended_witness :
    interpret_points "rid" none "txt" (some (Json.obj [("points", Json.arr [Json.num 1])]))
      = Except.ok ⟨"rid", "ok", none, some (Json.arr [Json.num 1]), none⟩ ∧
    interpret_mcq "rid" none "txt" (some (Json.obj [("result", Json.arr [Json.num 2])]))
      = Except.ok ⟨"rid", "ok", none, some (Json.arr [Json.num 2]), none⟩ :=
  ⟨C1_amended_truthy_resolution.2.1 "rid" none "txt" _ _ _ (by decide),
   C1_amended_truthy_resolution.2.2.1 "rid" none "txt" _ _ _ (by decide) (by decide)⟩

/-- C4 is false as stated: clamping happens only on the mock path.  On
the real path both handlers pass the raw requested count to the prompt
builder — with count 100 the user instruction reads "Create exactly 100"
(and points mode "up to 100"), not a value clamped into range. -/
theorem C4_counterexample :
    mockMode ⟨some "sk-test", true⟩ = false ∧
    ¬ ((1 : Int) ≤ 100 ∧ (100 : Int) ≤ 20) ∧
    generate_mcq ⟨some "sk-test", true⟩ ⟨"Indian Polity", 100, "medium", none⟩
        (fun _ u => Except.error u) (fun _ => none)
      = Except.error (PyError.httpException 500
          ("OpenAI request failed: " ++ (mcq_task_line "Indian Polity" 100 ++ mcq_schema_block))) ∧
    strHasPref "Task: Create exactly 100 multiple-choice questions"
      (mcq_task_line "Indian Polity" 100 ++ mcq_schema_block) = true ∧
    strHasSub "Create exactly 20" (mcq_task_line "Indian Polity" 100) = false ∧
    generate_points ⟨some "sk-test", true⟩ ⟨"Indian Polity", 100, none⟩
        (fun _ u => Except.error u) (fun _ => none)
      = Except.error (PyError.httpException 500
          ("OpenAI request failed: "
            ++ (points_task_line "Indian Polity" 100 ++ points_schema_block))) ∧
    strHasSub "up to 100 short bullet points" (points_task_line "Indian Polity" 100) = true := by
  refine ⟨by decide, by decide, ?_, ?_, by decide, ?_, by decide⟩
  · simp [generate_mcq, mockMode, keyTruthy, build_mcq_prompt]
  · exact strHasPref_append _ _ _ (by decide)
  · simp [generate_points, mockMode, keyTruthy, build_points_prompt]

/-- C4 amended: the 1..20 (questions) / 1..12 (points) clamp is applied
only on the mock path, where the result length is the clamped value and
that value lies in range; on the real path the requested count or
max_points is handed to the prompt builder unclamped and embedded
verbatim in the Task line of the user instruction. -/
theorem C4_amended_clamp_only_on_mock_path :
    (∀ (cfg : Config) (req : MCQRequest) (preq : PointsRequest)
       (create : String → String → Except String OpenAIResp) (loads : String → Option Json),
      mockMode cfg = true →
      generate_mcq cfg req create loads
        = Except.ok ⟨"local-mock-no-key", "ok", some 0, some (Json.arr (mock_mcq_result req)), none⟩ ∧
      (mock_mcq_result req).length = (max 1 (min 20 req.count)).toNat ∧
      1 ≤ max 1 (min 20 req.count) ∧ max 1 (min 20 req.count) ≤ 20 ∧
      generate_points cfg preq create loads
        = Except.ok ⟨"local-mock-points", "ok", some 0, some (Json.arr (mock_points_result preq)), none⟩ ∧
      (mock_points_result preq).length = (max 1 (min 12 preq.max_points)).toNat ∧
      1 ≤ max 1 (min 12 preq.max_points) ∧ max 1 (min 12 preq.max_points) ≤ 12) ∧
    (∀ (cfg : Config) (req : MCQRequest) (preq : PointsRequest) (loads : String → Option Json),
      mockMode cfg = false →
      generate_mcq cfg req (fun _ u => Except.error u) loads
        = Except.error (PyError.httpException 500
            ("OpenAI request failed: "
              ++ (build_mcq_prompt req.topic req.count req.difficulty req.context).2)) ∧
      (∃ pre, (build_mcq_prompt req.topic req.count req.difficulty req.context).2
          = pre ++ (mcq_task_line req.topic req.count ++ mcq_schema_block)) ∧
      mcq_task_line req.topic req.count
        = "Task: Create exactly " ++ toString req.count
            ++ " multiple-choice questions on the topic: \"" ++ req.topic ++ "\".\n\n" ∧
      generate_points cfg preq (fun _ u => Except.error u) loads
        = Except.error (PyError.httpException 500
            ("OpenAI request failed: "
              ++ (build_points_prompt preq.topic preq.max_points preq.context).2)) ∧
      (∃ pre, (build_points_prompt preq.topic preq.max_points preq.context).2
          = pre ++ (points_task_line preq.topic preq.max_points ++ points_schema_block)) ∧
      points_task_line preq.topic preq.max_points
        = "Task: Summarize the topic \"" ++ preq.topic ++ "\" into up to "
            ++ toString preq.max_points
            ++ " short bullet points that a JKSSB aspirant can memorize.\n\n") := by
  constructor
  · intro cfg req preq create loads h
    refine ⟨by simp [generate_mcq, h],
      by simp only [mock_mcq_result, List.length_map, List.length_range],
      le_max_left 1 _, max_le (by norm_num) (le_trans (min_le_left 20 _) (by norm_num)),
      by simp [generate_points, h],
      by simp only [mock_points_result, List.length_map, List.length_range],
      le_max_left 1 _, max_le (by norm_num) (le_trans (min_le_left 12 _) (by norm_num))⟩
  · intro cfg req preq loads h
    refine ⟨by simp [generate_mcq, h], ?_, rfl, by simp [generate_points, h], ?_, rfl⟩
    · rcases req.context with _ | c
      · exact ⟨"", rfl⟩
      · by_cases hc : c = ""
        · subst hc; exact ⟨"", rfl⟩
        · have hc' : (c != "") = true := by simpa using hc
          refine ⟨mcq_context_block c, ?_⟩
          simp [build_mcq_prompt, hc']
    · rcases preq.context with _ | c
      · exact ⟨"", rfl⟩
      · by_cases hc : c = ""
        · subst hc; exact ⟨"", rfl⟩
        · have hc' : (c != "") = true := by simpa using hc
          refine ⟨points_context_block c, ?_⟩
          simp [build_points_prompt, hc']

/-- Witness for C4 amended: a 100-question request clamps to 20 on the
mock path, and on the real path the prompt is built with the raw 100. -/
theorem C4_amended_witness :
    (mock_mcq_result ⟨"Indian Polity", 100, "medium", none⟩).length
      = (max 1 (min 20 (100 : Int))).toNat ∧
    generate_mcq ⟨some "sk-test", true⟩ ⟨"Indian Polity", 100, "medium", none⟩
        (fun _ u => Except.error u) (fun _ => none)
      = Except.error (PyError.httpException 500
          ("OpenAI request failed: " ++ (build_mcq_prompt "Indian Polity" 100 "medium" none).2)) :=
  have h1 := C4_amended_clamp_only_on_mock_path.1 ⟨none, true⟩
    ⟨"Indian Polity", 100, "medium", none⟩ ⟨"Indian Polity", 100, none⟩
    (fun _ _ => Except.error "x") (fun _ => none) (by decide)
  have h2 := C4_amended_clamp_only_on_mock_path.2 ⟨some "sk-test", true⟩
    ⟨"Indian Polity", 100, "medium", none⟩ ⟨"Indian Polity", 100, none⟩
    (fun _ => none) (by decide)
  ⟨h1.2.1, h2.1⟩
